import Mathlib

/-!
Shallow embedding of `src/main.py` (aws-rekognition-facial-recognition).

The program performs one-time setup (create-or-verify a Rekognition
collection, index one known face) and then runs a webcam loop: read a
frame, JPEG-encode it, search the collection by image, draw one overlay
on the frame depending on the search outcome, show the frame, and poll
for the quit key.  Similarity scores are modelled as rationals; the
external service, camera and GUI are modelled as per-iteration input
events, and the loop as a recursive function over the list of events
that records the observable effects of each iteration.
-/

namespace FaceRec

/-- Source constant `SIMILARITY_THRESHOLD = 85.0` (main.py line 25). -/
def SIMILARITY_THRESHOLD : ℚ := 85

/-- Source constant `COLLECTION_ID` (main.py line 22). -/
def COLLECTION_ID : String := "my-face-collection"

/-- Source constant `KNOWN_FACE_ID` (main.py line 24). -/
def KNOWN_FACE_ID : String := "S_Bussiso_Dube"

/-- One entry of the `FaceMatches` list of a successful
`search_faces_by_image` response: the fields the loop reads are
`Similarity` and `Face.ExternalImageId` (main.py lines 115-116). -/
structure FaceMatch where
  similarity : ℚ
  externalImageId : String
deriving DecidableEq, Repr

/-- Outcome of the `search_faces_by_image` call (main.py lines 105-110):
either a response carrying a `FaceMatches` list, or a raised exception
caught at line 130. -/
inductive SearchOutcome where
  | ok (faceMatches : List FaceMatch)
  | err
deriving DecidableEq, Repr

/-- The per-frame identity decision, the tagged variant the four
branches of main.py lines 112-132 realise. -/
inductive Decision where
  | Match (externalId : String) (similarity : ℚ)
  | LowMatch (externalId : String) (similarity : ℚ)
  | NoMatch
  | SearchError
deriving DecidableEq, Repr

/-- The decision logic of main.py lines 112-132, as a function of the
search outcome and the threshold: an exception gives `SearchError`
(line 130); an empty `FaceMatches` list gives `NoMatch` (lines 126-128);
otherwise `matches[0]` is taken (line 114) and `sim >= similarity_threshold`
(line 119) decides between `Match` and `LowMatch`. -/
def decideMatch (outcome : SearchOutcome) (threshold : ℚ) : Decision :=
  match outcome with
  | .err => .SearchError
  | .ok ms =>
    match ms with
    | [] => .NoMatch
    | m :: _ =>
      if m.similarity ≥ threshold then .Match m.externalImageId m.similarity
      else .LowMatch m.externalImageId m.similarity

/-- The `cv2.putText` overlay each decision branch draws
(main.py lines 121, 125, 128, 132). -/
inductive Overlay where
  | matchText (externalId : String)
  | lowMatchText
  | noMatchText
  | searchErrorText
deriving DecidableEq, Repr

/-- Which overlay the branch for a given decision draws. -/
def overlayOf : Decision → Overlay
  | .Match id _ => .matchText id
  | .LowMatch _ _ => .lowMatchText
  | .NoMatch => .noMatchText
  | .SearchError => .searchErrorText

/-- Result of `rek_client.create_collection` as `setup_collection`
distinguishes it (main.py lines 52-59): success, the
`ResourceAlreadyExistsException`, or any other exception. -/
inductive CreateCollectionResult where
  | created
  | resourceAlreadyExists
  | otherError
deriving DecidableEq, Repr

/-- Whether a setup step lets `main` continue or calls `sys.exit`. -/
inductive StepOutcome where
  | proceed
  | exit (code : Nat)
deriving DecidableEq, Repr

/-- `setup_collection` (main.py lines 50-59): create the collection;
`ResourceAlreadyExistsException` is logged and the function returns
normally (lines 55-56); any other exception exits with code 1
(lines 57-59). -/
def setup_collection : CreateCollectionResult → StepOutcome
  | .created => .proceed
  | .resourceAlreadyExists => .proceed
  | .otherError => .exit 1

/-- Modelled from the spec: the remote `ensureCollection` contract
(`ensureCollection(id) -> Ok | AlreadyExists`, spec 4.3) — the service
itself is an external collaborator absent from src/.  Creating an
existing collection reports `AlreadyExists` and leaves the set of
collections unchanged; otherwise the collection is created. -/
def create_collection (collections : List String) (id : String) :
    CreateCollectionResult × List String :=
  if id ∈ collections then (.resourceAlreadyExists, collections)
  else (.created, id :: collections)

/-- One run of `setup_collection` against the modelled remote state:
issue `create_collection` and map the result through the error
handling of main.py lines 52-59. -/
def setupRun (collections : List String) (id : String) :
    StepOutcome × List String :=
  let r := create_collection collections id
  (setup_collection r.1, r.2)

/-- How `index_known_face` can go (main.py lines 61-81): the reference
image file may be missing (`FileNotFoundError`, lines 76-78), the
`index_faces` call may raise (lines 79-81), or everything succeeds. -/
inductive IndexFaceEvent where
  | fileNotFound
  | indexError
  | success
deriving DecidableEq, Repr

/-- `index_known_face` (main.py lines 61-81): `FileNotFoundError`
exits with code 1 (lines 76-78); any other exception is only logged —
the except block at lines 79-81 contains no `sys.exit`, so the
function returns and `main` proceeds. -/
def index_known_face : IndexFaceEvent → StepOutcome
  | .fileNotFound => .exit 1
  | .indexError => .proceed
  | .success => .proceed

/-- The environment events one iteration of the webcam loop
(main.py lines 92-138) can encounter, in the order the body consults
them: `frameAvailable` is the `ret` of `cap.read()` (line 93),
`encodeOk` the `ret` of `cv2.imencode` (line 98), `search` the outcome
of `search_faces_by_image` (lines 105-110), `raiseAtShow` models an
exception escaping the loop body at `cv2.imshow` (line 134, outside
the inner try/except), and `quit` whether `cv2.waitKey` reports the
`q` key (line 136). -/
structure IterInput where
  frameAvailable : Bool
  encodeOk : Bool
  search : SearchOutcome
  raiseAtShow : Bool
  quit : Bool
deriving DecidableEq, Repr

/-- The parameters the loop passes to `search_faces_by_image`
(main.py lines 108-109): `FaceMatchThreshold` and `MaxFaces`. -/
structure SearchRequest where
  faceMatchThreshold : ℚ
  maxFaces : Nat
deriving DecidableEq, Repr

/-- The observable effects of one loop iteration that acquired a
frame: the search requests issued, the `putText` overlays drawn on
the frame, whether `cv2.imshow` displayed it (line 134), and whether
the `cv2.waitKey` cancellation poll ran (line 136). -/
structure IterEffect where
  requests : List SearchRequest
  overlays : List Overlay
  shown : Bool
  cancelChecked : Bool
deriving DecidableEq, Repr

/-- How the `while True` loop ended: `break` at a failed frame read
(lines 94-96), `break` at the quit key (lines 136-138), an exception
escaping the body, or the supplied event list running out while the
loop was still running (an artifact of modelling the unbounded loop
on a finite event list). -/
inductive ExitKind where
  | endOfStream
  | userQuit
  | error
  | inputsExhausted
deriving DecidableEq, Repr

/-- The `while True` loop of main.py lines 92-138 over a finite list
of per-iteration events, returning the per-frame effects in order and
how the loop ended.  A failed read breaks out at once (lines 94-96);
a failed encode runs `continue` (lines 99-101), skipping the search,
all drawing, `imshow` and the `waitKey` poll for that iteration; an
acquired, encoded frame issues one search with the configured
threshold and `MaxFaces=1`, draws the single overlay of its decision
branch, is shown, and the quit key is polled. -/
def runLoop (threshold : ℚ) : List IterInput → List IterEffect × ExitKind
  | [] => ([], .inputsExhausted)
  | inp :: rest =>
    if inp.frameAvailable = false then ([], .endOfStream)
    else if inp.encodeOk = false then
      (⟨[], [], false, false⟩ :: (runLoop threshold rest).1,
        (runLoop threshold rest).2)
    else if inp.raiseAtShow = true then
      ([⟨[⟨threshold, 1⟩], [overlayOf (decideMatch inp.search threshold)],
          false, false⟩], .error)
    else if inp.quit = true then
      ([⟨[⟨threshold, 1⟩], [overlayOf (decideMatch inp.search threshold)],
          true, true⟩], .userQuit)
    else
      (⟨[⟨threshold, 1⟩], [overlayOf (decideMatch inp.search threshold)],
          true, true⟩ :: (runLoop threshold rest).1,
        (runLoop threshold rest).2)

/-- The camera handle: whether it is open and how many times
`cap.release()` has been called on it. -/
structure CamState where
  opened : Bool
  releaseCalls : Nat
deriving DecidableEq, Repr

/-- `cap.release()` (main.py line 143). -/
def camRelease (c : CamState) : CamState :=
  { opened := false, releaseCalls := c.releaseCalls + 1 }

/-- What `run_face_recognition` produces once the webcam has opened:
the loop trace, how the loop ended, the final camera state after the
`finally` block, and whether `cv2.destroyAllWindows` ran. -/
structure RunResult where
  effects : List IterEffect
  exitKind : ExitKind
  cam : CamState
  windowsDestroyed : Bool
deriving DecidableEq, Repr

/-- `run_face_recognition` from the point the webcam is open
(main.py lines 91-145): run the loop inside `try`, then the `finally`
block releases the camera if it is still open (lines 142-143) and
destroys all windows (line 144).  Nothing in the loop body closes the
camera, so the handle enters the `finally` block still open. -/
def run_face_recognition (threshold : ℚ) (inputs : List IterInput) :
    RunResult :=
  let cam0 : CamState := { opened := true, releaseCalls := 0 }
  let r := runLoop threshold inputs
  let cam1 := if cam0.opened then camRelease cam0 else cam0
  { effects := r.1, exitKind := r.2, cam := cam1, windowsDestroyed := true }

/-- What a run of `main` produces: whether the recognition loop was
entered, its result when it was, and the process exit code (0 for the
normal fall-through past line 154, 1 for `sys.exit(1)`). -/
structure MainResult where
  loopEntered : Bool
  loopRun : Option RunResult
  exitCode : Nat
deriving DecidableEq, Repr

/-- `main` (main.py lines 148-154), after a successfully initialized
client: `setup_collection`, then `index_known_face`, then — if the
webcam opens (lines 86-89) — `run_face_recognition`.  A step that
calls `sys.exit` stops the process before the loop. -/
def main (createRes : CreateCollectionResult) (idxEv : IndexFaceEvent)
    (camOpens : Bool) (threshold : ℚ) (inputs : List IterInput) :
    MainResult :=
  match setup_collection createRes with
  | .exit c => { loopEntered := false, loopRun := none, exitCode := c }
  | .proceed =>
    match index_known_face idxEv with
    | .exit c => { loopEntered := false, loopRun := none, exitCode := c }
    | .proceed =>
      if camOpens = false then
        { loopEntered := false, loopRun := none, exitCode := 1 }
      else
        { loopEntered := true,
          loopRun := some (run_face_recognition threshold inputs),
          exitCode := 0 }

/-! Step equations for `runLoop`, one per control path of the loop
body. -/

theorem runLoop_endOfStream (t : ℚ) (inp : IterInput)
    (rest : List IterInput) (h : inp.frameAvailable = false) :
    runLoop t (inp :: rest) = ([], .endOfStream) := by
  simp [runLoop, h]

theorem runLoop_encodeFail (t : ℚ) (inp : IterInput)
    (rest : List IterInput) (h1 : inp.frameAvailable = true)
    (h2 : inp.encodeOk = false) :
    runLoop t (inp :: rest) =
      (⟨[], [], false, false⟩ :: (runLoop t rest).1, (runLoop t rest).2) := by
  simp [runLoop, h1, h2]

theorem runLoop_raise (t : ℚ) (inp : IterInput) (rest : List IterInput)
    (h1 : inp.frameAvailable = true) (h2 : inp.encodeOk = true)
    (h3 : inp.raiseAtShow = true) :
    runLoop t (inp :: rest) =
      ([⟨[⟨t, 1⟩], [overlayOf (decideMatch inp.search t)], false, false⟩],
        .error) := by
  simp [runLoop, h1, h2, h3]

theorem runLoop_quit (t : ℚ) (inp : IterInput) (rest : List IterInput)
    (h1 : inp.frameAvailable = true) (h2 : inp.encodeOk = true)
    (h3 : inp.raiseAtShow = false) (h4 : inp.quit = true) :
    runLoop t (inp :: rest) =
      ([⟨[⟨t, 1⟩], [overlayOf (decideMatch inp.search t)], true, true⟩],
        .userQuit) := by
  simp [runLoop, h1, h2, h3, h4]

theorem runLoop_step (t : ℚ) (inp : IterInput) (rest : List IterInput)
    (h1 : inp.frameAvailable = true) (h2 : inp.encodeOk = true)
    (h3 : inp.raiseAtShow = false) (h4 : inp.quit = false) :
    runLoop t (inp :: rest) =
      (⟨[⟨t, 1⟩], [overlayOf (decideMatch inp.search t)], true, true⟩ ::
          (runLoop t rest).1,
        (runLoop t rest).2) := by
  simp [runLoop, h1, h2, h3, h4]

/-- Invariant of every effect the loop records: an iteration either
skipped everything after a failed encode (no search, no overlay, no
display, no cancellation poll), or it issued exactly one search with
the configured threshold and `MaxFaces = 1` and drew exactly one
overlay. -/
theorem runLoop_effect_inv (t : ℚ) (inputs : List IterInput) :
    ∀ eff ∈ (runLoop t inputs).1,
      (eff.requests = [] ∧ eff.overlays = [] ∧ eff.shown = false ∧
        eff.cancelChecked = false) ∨
      (eff.requests = [⟨t, 1⟩] ∧ eff.overlays.length = 1 ∧
        eff.shown = eff.cancelChecked) := by
  induction inputs with
  | nil => intro eff h; simp [runLoop] at h
  | cons inp rest ih =>
    intro eff h
    by_cases h1 : inp.frameAvailable = false
    · rw [runLoop_endOfStream t inp rest h1] at h
      simp at h
    · rw [Bool.not_eq_false] at h1
      by_cases h2 : inp.encodeOk = false
      · rw [runLoop_encodeFail t inp rest h1 h2] at h
        rcases List.mem_cons.mp h with h3 | h3
        · subst h3; left; exact ⟨rfl, rfl, rfl, rfl⟩
        · exact ih eff h3
      · rw [Bool.not_eq_false] at h2
        by_cases h3 : inp.raiseAtShow = true
        · rw [runLoop_raise t inp rest h1 h2 h3] at h
          rcases List.mem_singleton.mp h with h4
          subst h4; right; exact ⟨rfl, rfl, rfl⟩
        · rw [Bool.not_eq_true] at h3
          by_cases h4 : inp.quit = true
          · rw [runLoop_quit t inp rest h1 h2 h3 h4] at h
            rcases List.mem_singleton.mp h with h5
            subst h5; right; exact ⟨rfl, rfl, rfl⟩
          · rw [Bool.not_eq_true] at h4
            rw [runLoop_step t inp rest h1 h2 h3 h4] at h
            rcases List.mem_cons.mp h with h5 | h5
            · subst h5; right; exact ⟨rfl, rfl, rfl⟩
            · exact ih eff h5

/-- Claim C1: the match decision uses the threshold as a closed lower
bound — a candidate with similarity at least the threshold yields
`Match(externalId, similarity)`, one strictly below yields
`LowMatch(externalId, similarity)`; concretely, with threshold 85,
similarity 85 yields `Match` and similarity 84.99 yields `LowMatch`. -/
theorem C1_threshold_closed_lower_bound (t sim : ℚ) (id : String)
    (rest : List FaceMatch) :
    (sim ≥ t → decideMatch (.ok (⟨sim, id⟩ :: rest)) t = .Match id sim) ∧
    (sim < t → decideMatch (.ok (⟨sim, id⟩ :: rest)) t = .LowMatch id sim) ∧
    decideMatch (.ok [⟨85, id⟩]) 85 = .Match id 85 ∧
    decideMatch (.ok [⟨(8499 : ℚ) / 100, id⟩]) 85 =
      .LowMatch id ((8499 : ℚ) / 100) := by
  refine ⟨fun h => ?_, fun h => ?_, ?_, ?_⟩
  · simp [decideMatch, h]
  · simp [decideMatch, not_le.mpr h]
  · norm_num [decideMatch]
  · norm_num [decideMatch]

/-- Witness for C1 at threshold 85: similarity 85 gives `Match`,
similarity 84 gives `LowMatch`. -/
theorem C1_threshold_closed_lower_bound_witness :
    decideMatch (.ok [⟨85, "S_Bussiso_Dube"⟩]) 85 =
      .Match "S_Bussiso_Dube" 85 ∧
    decideMatch (.ok [⟨84, "S_Bussiso_Dube"⟩]) 85 =
      .LowMatch "S_Bussiso_Dube" 84 :=
  ⟨(C1_threshold_closed_lower_bound 85 85 "S_Bussiso_Dube" []).1 (le_refl 85),
   (C1_threshold_closed_lower_bound 85 84 "S_Bussiso_Dube" []).2.1
     (by norm_num)⟩

/-- Claim C2 counterexample: not every enrollment failure is fatal.
When `index_faces` raises (any exception other than
`FileNotFoundError`), `index_known_face` only logs and returns, and
`main` enters the recognition loop and finishes normally. -/
theorem C2_counterexample :
    index_known_face .indexError = .proceed ∧
    (main .created .indexError true 85 []).loopEntered = true ∧
    (main .created .indexError true 85 []).exitCode = 0 :=
  ⟨rfl, rfl, rfl⟩

/-- Claim C2 as amended: only the reference image being unreadable
(`FileNotFoundError`) is a fatal enrollment failure — it aborts the
process with exit code 1 and the recognition loop is never entered;
any other `index_faces` failure is logged and the process proceeds. -/
theorem C2_amended (createRes : CreateCollectionResult) (camOpens : Bool)
    (t : ℚ) (inputs : List IterInput) :
    index_known_face .fileNotFound = .exit 1 ∧
    index_known_face .indexError = .proceed ∧
    index_known_face .success = .proceed ∧
    (main createRes .fileNotFound camOpens t inputs).loopEntered = false ∧
    (main createRes .fileNotFound camOpens t inputs).exitCode = 1 := by
  refine ⟨rfl, rfl, rfl, ?_, ?_⟩ <;> cases createRes <;> rfl

/-- Claim C3 counterexample: in an iteration whose frame encoding
fails, the cancellation check IS skipped — here the quit key is
pressed during such an iteration, yet the recorded effect has
`cancelChecked = false` and the loop does not exit via `userQuit`. -/
theorem C3_counterexample :
    runLoop 85 [⟨true, false, .ok [], false, true⟩] =
      ([⟨[], [], false, false⟩], .inputsExhausted) := by decide

/-- Claim C3 as amended: when frame encoding fails, the loop performs
no search and draws no annotation for that frame, remains running and
proceeds to the next iteration — but that iteration's cancellation
check is also skipped (the frame is not shown and the quit key is not
polled). -/
theorem C3_amended (t : ℚ) (inp : IterInput) (rest : List IterInput)
    (h1 : inp.frameAvailable = true) (h2 : inp.encodeOk = false) :
    runLoop t (inp :: rest) =
      (⟨[], [], false, false⟩ :: (runLoop t rest).1, (runLoop t rest).2) :=
  runLoop_encodeFail t inp rest h1 h2

/-- Witness for C3 as amended: an encode failure followed by end of
stream — the failed iteration records nothing and the loop goes on to
the next event. -/
theorem C3_amended_witness :
    runLoop 85
        [⟨true, false, .err, false, false⟩, ⟨false, true, .ok [], false, false⟩] =
      ([⟨[], [], false, false⟩], .endOfStream) := by
  rw [C3_amended 85 ⟨true, false, .err, false, false⟩
    [⟨false, true, .ok [], false, false⟩] rfl rfl]
  decide

/-- Claim C4 counterexample: a frame acquired by the loop whose
encoding fails is rendered with no overlay at all — `cv2.imshow` is
never reached for it (`shown = false`, `overlays = []`), so the
display keeps the previous frame. -/
theorem C4_counterexample :
    runLoop 85 [⟨true, false, .ok [⟨90, "S_Bussiso_Dube"⟩], false, false⟩] =
      ([⟨[], [], false, false⟩], .inputsExhausted) := by decide

/-- Claim C4 as amended: every frame that is shown is rendered with
exactly one of the four mutually exclusive overlays (a search failure
still yields a shown frame with the `SearchError` overlay), but a
frame whose encoding fails is not rendered at all — no search, no
overlay, not shown. -/
theorem C4_amended (t : ℚ) (inputs : List IterInput) (eff : IterEffect)
    (heff : eff ∈ (runLoop t inputs).1) :
    (eff.shown = true → eff.overlays.length = 1) ∧
    (eff.requests = [] → eff.overlays = [] ∧ eff.shown = false) := by
  rcases runLoop_effect_inv t inputs eff heff with h | h
  · constructor
    · intro hs; rw [h.2.2.1] at hs; cases hs
    · intro _; exact ⟨h.2.1, h.2.2.1⟩
  · constructor
    · intro _; exact h.2.1
    · intro hr; rw [h.1] at hr; simp at hr

/-- Witness for C4 as amended: the single shown frame of a concrete
run carries exactly one overlay. -/
theorem C4_amended_witness :
    (IterEffect.mk [⟨85, 1⟩] [.noMatchText] true true).overlays.length = 1 :=
  (C4_amended 85 [⟨true, true, .ok [], false, true⟩]
      ⟨[⟨85, 1⟩], [.noMatchText], true, true⟩ (by decide)).1 rfl

/-- Claim C5: a failed search call is contained in its iteration —
the decision for that frame is `SearchError`, the frame is still
shown with that indicator, exactly one search request was issued (no
retry), the cancellation poll still runs, and the remainder of the
loop proceeds exactly as it would on the remaining events. -/
theorem C5_search_failure_isolated (t : ℚ) (inp : IterInput)
    (rest : List IterInput) (h1 : inp.frameAvailable = true)
    (h2 : inp.encodeOk = true) (h3 : inp.search = .err)
    (h4 : inp.raiseAtShow = false) (h5 : inp.quit = false) :
    decideMatch inp.search t = .SearchError ∧
    runLoop t (inp :: rest) =
      (⟨[⟨t, 1⟩], [.searchErrorText], true, true⟩ :: (runLoop t rest).1,
        (runLoop t rest).2) := by
  constructor
  · rw [h3]; rfl
  · rw [runLoop_step t inp rest h1 h2 h4 h5, h3]; rfl

/-- Witness for C5: a failed search followed by a successful
no-match iteration — the failure is confined to the first frame and
the second proceeds normally. -/
theorem C5_search_failure_isolated_witness :
    runLoop 85
        [⟨true, true, .err, false, false⟩, ⟨true, true, .ok [], false, true⟩] =
      ([⟨[⟨85, 1⟩], [.searchErrorText], true, true⟩,
        ⟨[⟨85, 1⟩], [.noMatchText], true, true⟩], .userQuit) := by
  rw [(C5_search_failure_isolated 85 ⟨true, true, .err, false, false⟩
    [⟨true, true, .ok [], false, true⟩] rfl rfl rfl rfl rfl).2]
  decide

/-- Claim C6: collection setup is idempotent —
`ResourceAlreadyExistsException` is handled exactly like a successful
creation (the process proceeds), so running setup twice with the same
collection id never fails the second time. -/
theorem C6_idempotent_setup (collections : List String) (id : String) :
    setup_collection .resourceAlreadyExists = setup_collection .created ∧
    setup_collection .resourceAlreadyExists = .proceed ∧
    (setupRun collections id).1 = .proceed ∧
    (setupRun (setupRun collections id).2 id).1 = .proceed := by
  refine ⟨rfl, rfl, ?_, ?_⟩ <;>
    by_cases h : id ∈ collections <;>
    simp [setupRun, create_collection, setup_collection, h]

/-- Claim C7: on every path out of the recognition loop — quit key,
end of stream, or an error raised during the loop — the `finally`
block releases the camera exactly once, leaves it closed, and
destroys the rendering windows. -/
theorem C7_camera_released_once (t : ℚ) (inputs : List IterInput)
    (h : (run_face_recognition t inputs).exitKind = .userQuit ∨
      (run_face_recognition t inputs).exitKind = .endOfStream ∨
      (run_face_recognition t inputs).exitKind = .error) :
    (run_face_recognition t inputs).cam.releaseCalls = 1 ∧
    (run_face_recognition t inputs).cam.opened = false ∧
    (run_face_recognition t inputs).windowsDestroyed = true :=
  ⟨rfl, rfl, rfl⟩

/-- Witness for C7 on a run ending in end of stream. -/
theorem C7_camera_released_once_witness :
    (run_face_recognition 85 [⟨false, true, .ok [], false, false⟩]).cam.releaseCalls = 1 ∧
    (run_face_recognition 85 [⟨false, true, .ok [], false, false⟩]).cam.opened = false :=
  ⟨(C7_camera_released_once 85 [⟨false, true, .ok [], false, false⟩]
      (Or.inr (Or.inl (by decide)))).1,
   (C7_camera_released_once 85 [⟨false, true, .ok [], false, false⟩]
      (Or.inr (Or.inl (by decide)))).2.1⟩

/-- Claim C8: a search response with no candidates yields `NoMatch`,
for every threshold. -/
theorem C8_empty_result_noMatch (t : ℚ) :
    decideMatch (.ok []) t = .NoMatch := rfl

/-- Claim C9: a failed frame read ends the loop gracefully — the loop
stops at once without touching the remaining events (stopped is
terminal), the run reports `endOfStream`, the camera is released, and
a `main` run that reaches the loop still finishes with exit code 0. -/
theorem C9_endOfStream_graceful (t : ℚ) (inp : IterInput)
    (rest : List IterInput) (h : inp.frameAvailable = false) :
    runLoop t (inp :: rest) = ([], .endOfStream) ∧
    (run_face_recognition t (inp :: rest)).exitKind = .endOfStream ∧
    (run_face_recognition t (inp :: rest)).cam.releaseCalls = 1 ∧
    (run_face_recognition t (inp :: rest)).cam.opened = false ∧
    (main .created .success true t (inp :: rest)).exitCode = 0 := by
  have he := runLoop_endOfStream t inp rest h
  refine ⟨he, ?_, rfl, rfl, rfl⟩
  simp [run_face_recognition, he]

/-- Witness for C9: the stream ends on the first read; the later
event is never consumed. -/
theorem C9_endOfStream_graceful_witness :
    runLoop 85
        [⟨false, true, .ok [], false, false⟩, ⟨true, true, .ok [], false, false⟩] =
      ([], .endOfStream) :=
  (C9_endOfStream_graceful 85 ⟨false, true, .ok [], false, false⟩
    [⟨true, true, .ok [], false, false⟩] rfl).1

/-- Claim C10: every search request the loop issues carries the
configured threshold as `FaceMatchThreshold` (and `MaxFaces = 1`), so
under the service contract that every returned candidate has
similarity at least that filter, the `LowMatch` branch is unreachable
and a nonempty response can only confirm a `Match`. -/
theorem C10_lowMatch_unreachable (t : ℚ) (inputs : List IterInput)
    (ms : List FaceMatch) (hms : ∀ m ∈ ms, m.similarity ≥ t) :
    (∀ eff ∈ (runLoop t inputs).1, ∀ req ∈ eff.requests,
      req.faceMatchThreshold = t ∧ req.maxFaces = 1) ∧
    (∀ id sim, decideMatch (.ok ms) t ≠ .LowMatch id sim) ∧
    (∀ m rest, ms = m :: rest →
      decideMatch (.ok ms) t = .Match m.externalImageId m.similarity) := by
  refine ⟨?_, ?_, ?_⟩
  · intro eff heff req hreq
    rcases runLoop_effect_inv t inputs eff heff with h | h
    · rw [h.1] at hreq; simp at hreq
    · rw [h.1] at hreq
      rw [List.mem_singleton.mp hreq]
      exact ⟨rfl, rfl⟩
  · intro id sim hcontra
    cases ms with
    | nil => simp [decideMatch] at hcontra
    | cons m rest =>
      have hm : m.similarity ≥ t := hms m (List.mem_cons_self m rest)
      simp [decideMatch, hm] at hcontra
  · intro m rest hrfl
    subst hrfl
    have hm : m.similarity ≥ t := hms m (List.mem_cons_self m rest)
    simp [decideMatch, hm]

/-- Witness for C10: a candidate at similarity 90 against threshold
85 satisfies the service contract and is decided `Match`. -/
theorem C10_lowMatch_unreachable_witness :
    decideMatch (.ok [⟨90, "S_Bussiso_Dube"⟩]) 85 =
      .Match "S_Bussiso_Dube" 90 :=
  (C10_lowMatch_unreachable 85 [] [⟨90, "S_Bussiso_Dube"⟩]
      (by decide)).2.2 ⟨90, "S_Bussiso_Dube"⟩ [] rfl

end FaceRec
